import Mathlib

/-!
Shallow embedding of the `miniless` terminal pager core
(src/renderloop.rs, src/search.rs, src/main.rs, src/utils/line.rs).

Modelling conventions:
* Machine integers (`u16`, `u64`/`usize`) are modelled as `Nat`; wherever the
  Rust code performs a conversion (`as u16`) or a subtraction that can
  underflow in release builds, we apply an explicit `% 2^w` reduction
  (`u16of`, `u16sub`, `u64sub`, `i16of`).
* The rope of file lines is a `List String`; out-of-range access uses the
  empty-string default (the Rust code would panic there; no claim exercises
  an out-of-range line access).
* Terminal effects: only the cursor position is observable state.  Crossterm
  `MoveUp`/`MoveLeft` clamp at 0 (Nat truncated subtraction), `MoveDown` /
  `MoveRight` / `MoveTo` clamp at the window edge.  `ScrollUp`/`ScrollDown`,
  `Print` repaints bracketed by `SavePosition`/`RestorePosition`, and screen
  clears do not move the cursor and carry no further modelled state.
* The external grep matcher (`search::search`) is a boundary; handlers that
  invoke it take its result list as the parameter `found`.
-/

/-- STATUS_LINE_OFFSET from src/renderloop.rs. -/
def STATUS_LINE_OFFSET : Nat := 2

/-- DISPLAY_BOTTOM_LINE_OFFSET from src/renderloop.rs. -/
def DISPLAY_BOTTOM_LINE_OFFSET : Nat := STATUS_LINE_OFFSET + 1

/-- CURSOR_JUMP_OFFSET from src/renderloop.rs. -/
def CURSOR_JUMP_OFFSET : Nat := 30

/-- Reduction of a natural number to `u16` range (`as u16` in Rust). -/
def u16of (n : Nat) : Nat := n % 65536

/-- Wrapping `u16` subtraction (release-build semantics of `a - b` on `u16`). -/
def u16sub (a b : Nat) : Nat := (u16of a + 65536 - u16of b) % 65536

/-- Wrapping `u16` addition. -/
def u16add (a b : Nat) : Nat := (u16of a + u16of b) % 65536

/-- Wrapping `u64`/`usize` subtraction (release-build semantics). -/
def u64sub (a b : Nat) : Nat :=
  (a % 18446744073709551616 + 18446744073709551616 - b % 18446744073709551616) %
    18446744073709551616

/-- Reinterpretation of a `u16` bit pattern as `i16` (`as i16` in Rust). -/
def i16of (n : Nat) : Int :=
  if u16of n < 32768 then (u16of n : Int) else (u16of n : Int) - 65536

/-- get_stripped_line_length from src/utils/line.rs: `v.trim_end().len()`,
the length of the line with trailing whitespace removed (expressed over the
character list; the development only instantiates it on ASCII lines, where
Rust's byte length and the character count coincide). -/
def get_stripped_line_length (line : String) : Nat :=
  (line.data.reverse.dropWhile Char.isWhitespace).length

/-- DisplayLines from src/renderloop.rs.  `endL` is the field named `end` in
the source (`end` is a Lean keyword).  `cursor_pos` and `shadow_cursor_pos`
are `(row, col)` pairs. -/
structure DisplayLines where
  start : Nat
  endL : Nat
  cursor_pos : Nat × Nat
  shadow_cursor_pos : Nat × Nat
deriving Repr, DecidableEq

/-- The observable terminal state: the hardware cursor position. -/
structure TermState where
  row : Nat
  col : Nat
deriving Repr, DecidableEq

/-- Crossterm `MoveUp(n)`: clamps at the top row. -/
def moveUp (t : TermState) (n : Nat) : TermState :=
  { t with row := t.row - n }

/-- Crossterm `MoveDown(n)`: clamps at the bottom row of a `w`-row window. -/
def moveDown (w : Nat) (t : TermState) (n : Nat) : TermState :=
  { t with row := min (t.row + n) (w - 1) }

/-- Crossterm `MoveLeft(n)`: clamps at column 0. -/
def moveLeft (t : TermState) (n : Nat) : TermState :=
  { t with col := t.col - n }

/-- Crossterm `MoveRight(n)`: clamps at the last column of a `wc`-column window. -/
def moveRight (wc : Nat) (t : TermState) (n : Nat) : TermState :=
  { t with col := min (t.col + n) (wc - 1) }

/-- Crossterm `MoveTo(x, y)` in a `w`-row, `wc`-column window. -/
def moveTo (w wc x y : Nat) (_t : TermState) : TermState :=
  { row := min y (w - 1), col := min x (wc - 1) }

/-- SearchResult from src/search.rs (the `filename` borrow is kept as a
string). -/
structure SearchResult where
  filename : String
  word : String
  word_vec : List Char
  match_lines : List (Nat × Nat)
  now_idx : Option Nat
deriving Repr, DecidableEq

/-- SearchResult::reset from src/search.rs. -/
def SearchResult.reset (s : SearchResult) : SearchResult :=
  { s with word := "", word_vec := [], match_lines := [], now_idx := none }

/-- SearchResult::exists_match from src/search.rs. -/
def SearchResult.exists_match (s : SearchResult) : Bool :=
  s.now_idx.isSome

/-- The index-tracking loop of SearchResult::get_near_line: first entry (in
ascending index order, starting at `idx`) whose line number is `≥ line`. -/
def get_near_line_go (ml : List (Nat × Nat)) (line : Nat) (idx : Nat) :
    Option (Nat × (Nat × Nat)) :=
  match ml with
  | [] => none
  | m :: rest => if m.1 ≥ line then some (idx, m) else get_near_line_go rest line (idx + 1)

/-- SearchResult::get_near_line from src/search.rs.  Returns the value the
Rust method returns together with the updated state (the method mutates
`now_idx` on a hit). -/
def SearchResult.get_near_line (s : SearchResult) (now_pos : Nat × Nat) :
    Option (Nat × Nat) × SearchResult :=
  match get_near_line_go s.match_lines now_pos.1 0 with
  | some (idx, m) => (some m, { s with now_idx := some idx })
  | none => (none, s)

/-- The reverse-index loop of SearchResult::get_near_line_with_previous:
highest index whose line number satisfies `line_num + 1 < line`. -/
def get_near_line_prev_go (ml : List (Nat × Nat)) (line : Nat) (idx : Nat) :
    Option (Nat × (Nat × Nat)) :=
  match ml with
  | [] => none
  | m :: rest =>
    match get_near_line_prev_go rest line (idx + 1) with
    | some r => some r
    | none => if m.1 + 1 < line then some (idx, m) else none

/-- SearchResult::get_near_line_with_previous from src/search.rs. -/
def SearchResult.get_near_line_with_previous (s : SearchResult) (now_pos : Nat × Nat) :
    Option (Nat × Nat) × SearchResult :=
  match get_near_line_prev_go s.match_lines now_pos.1 0 with
  | some (idx, m) => (some m, { s with now_idx := some idx })
  | none => (none, s)

/-- SearchResult from src/main.rs (the historical variant that still carries
`next()`); its match list field is named `lines` in the source. -/
structure SearchResultMain where
  word : String
  lines : List (Nat × Nat)
  now_idx : Option Nat
deriving Repr, DecidableEq

/-- SearchResult::next from src/main.rs. -/
def SearchResultMain.next (s : SearchResultMain) : Option (Nat × Nat) × SearchResultMain :=
  match s.now_idx with
  | some n =>
    if s.lines.length > 0 then
      let update_n := if s.lines.length > n + 1 then n + 1 else 0
      (some (s.lines.getD update_n (0, 0)), { s with now_idx := some update_n })
    else (none, s)
  | none => (none, s)

/-- SearchResult::reset from src/main.rs. -/
def SearchResultMain.reset (s : SearchResultMain) : SearchResultMain :=
  { s with word := "", lines := [], now_idx := none }

/-- Key events routed by the render loop (the subset that reaches the two
handlers; `other` stands for any unhandled event). -/
inductive Event where
  | keyJ
  | keyK
  | keyH
  | keyL
  | ctrlU
  | ctrlD
  | slash
  | keyN
  | keyNshift
  | enter
  | esc
  | backspace
  | char (c : Char)
  | other
deriving Repr, DecidableEq

/-- The mutable state threaded through handler_display_input_mode: the
viewport bookkeeping, the terminal cursor, and the search state. -/
structure PagerState where
  display_lines : DisplayLines
  term : TermState
  search_result : SearchResult
deriving Repr, DecidableEq

/-- is_required_correction_cursor_col from src/renderloop.rs (arguments are
`u64`, the result is `u16`; the `as u16` conversions are modelled with
`u16of`/`u16sub`). -/
def is_required_correction_cursor_col (col before_col line_len : Nat) : Nat :=
  if col = before_col then 0
  else if line_len > before_col then u16of before_col
  else if line_len = 0 ∨ line_len = 1 then 0
  else u16sub line_len 1

/-- handler_display_input_mode from src/renderloop.rs, as a state transition
on `PagerState`.  `w`/`wc` are the terminal rows/columns, `L` is `line_count`,
`lines` the file lines.  `cursor_pos_row`/`cursor_pos_col` of the source are
`st.term.row`/`st.term.col` (the loop reads them from the terminal), and
`now_line_idx = display_lines.start + cursor_pos_row` as computed by
`less_loop`.  Rendering side effects are dropped; cursor commands follow the
`moveUp`/`moveDown`/`moveLeft`/`moveRight`/`moveTo` semantics above. -/
def handler_display_input_mode (w wc L : Nat) (lines : List String)
    (event : Event) (st : PagerState) : PagerState :=
  let dl := st.display_lines
  let t := st.term
  let sr := st.search_result
  let now_line_idx := dl.start + t.row
  let line_len := get_stripped_line_length (lines.getD now_line_idx "")
  match event with
  | Event.keyJ =>
    let before_cursor_pos_col := dl.shadow_cursor_pos.2
    let step1 :=
      if w - DISPLAY_BOTTOM_LINE_OFFSET = t.row ∧ L ≠ dl.endL + 1 then
        let dl := { dl with start := dl.start + 1, endL := dl.endL + 1,
                            shadow_cursor_pos := (t.row + 1, before_cursor_pos_col) }
        let next_line_len :=
          (get_stripped_line_length (lines.getD (now_line_idx + 1) "")) - 1
        let col_diff := if t.col > u16of next_line_len then t.col - u16of next_line_len else 0
        (dl, t, next_line_len, col_diff)
      else if w - DISPLAY_BOTTOM_LINE_OFFSET ≠ t.row ∧ L ≠ t.row + 1 then
        let t1 := moveDown w t 1
        let dl := { dl with shadow_cursor_pos := (t.row + 1, before_cursor_pos_col) }
        let next_line_len :=
          (get_stripped_line_length (lines.getD (now_line_idx + 1) "")) - 1
        let col_diff := if t.col > u16of next_line_len then t.col - u16of next_line_len else 0
        (dl, t1, next_line_len, col_diff)
      else (dl, t, 0, 0)
    let dl1 := step1.1
    let t1 := step1.2.1
    let next_line_len := step1.2.2.1
    let col_diff := step1.2.2.2
    let step2 :=
      if col_diff > 0 then
        ({ dl1 with shadow_cursor_pos := (t.row, dl1.shadow_cursor_pos.2) }, moveLeft t1 col_diff)
      else (dl1, t1)
    let dl2 := step2.1
    let t2 := step2.2
    let shadow_cursor_col_diff :=
      is_required_correction_cursor_col t.col before_cursor_pos_col (next_line_len + 1)
    if shadow_cursor_col_diff > 0 then
      let d0 : Int := i16of shadow_cursor_col_diff - i16of t.col
      let d : Int := if d0 < 0 then 0 else d0
      { st with
          display_lines := { dl2 with shadow_cursor_pos := (t.row, before_cursor_pos_col) },
          term := moveRight wc t2 d.toNat }
    else { st with display_lines := dl2, term := t2 }
  | Event.keyK =>
    let before_cursor_pos_col := dl.shadow_cursor_pos.2
    let step1 :=
      if 0 = t.row ∧ dl.start > 0 then
        let dl := { dl with start := dl.start - 1, endL := dl.endL - 1,
                            shadow_cursor_pos := (u64sub t.row 1, before_cursor_pos_col) }
        let prev_line_len :=
          (get_stripped_line_length (lines.getD (now_line_idx - 1) "")) - 1
        let col_diff := if t.col > u16of prev_line_len then t.col - u16of prev_line_len else 0
        (dl, t, prev_line_len, col_diff)
      else if 0 ≠ t.row then
        let t1 := moveUp t 1
        let dl := { dl with shadow_cursor_pos := (t.row - 1, before_cursor_pos_col) }
        let prev_line_len :=
          (get_stripped_line_length (lines.getD (now_line_idx - 1) "")) - 1
        let col_diff := if t.col > u16of prev_line_len then t.col - u16of prev_line_len else 0
        (dl, t1, prev_line_len, col_diff)
      else (dl, t, 0, 0)
    let dl1 := step1.1
    let t1 := step1.2.1
    let prev_line_len := step1.2.2.1
    let col_diff := step1.2.2.2
    let step2 :=
      if col_diff > 0 then
        ({ dl1 with shadow_cursor_pos := (t.row, dl1.shadow_cursor_pos.2) }, moveLeft t1 col_diff)
      else (dl1, t1)
    let dl2 := step2.1
    let t2 := step2.2
    let shadow_cursor_col_diff :=
      is_required_correction_cursor_col t.col before_cursor_pos_col (prev_line_len + 1)
    if shadow_cursor_col_diff > 0 then
      let d0 : Int := i16of shadow_cursor_col_diff - i16of t.col
      let d : Int := if d0 < 0 then 0 else d0
      { st with
          display_lines := { dl2 with shadow_cursor_pos := (t.row, before_cursor_pos_col) },
          term := moveRight wc t2 d.toNat }
    else { st with display_lines := dl2, term := t2 }
  | Event.keyH =>
    if t.col > 0 then
      { st with
          display_lines := { dl with shadow_cursor_pos := (t.row, t.col - 1) },
          term := moveLeft t 1 }
    else st
  | Event.keyL =>
    if u16sub line_len 1 > t.col then
      { st with
          display_lines := { dl with shadow_cursor_pos := (t.row, t.col + 1) },
          term := moveRight wc t 1 }
    else st
  | Event.ctrlU =>
    let p :=
      if dl.start ≤ CURSOR_JUMP_OFFSET then
        (if dl.start = 0 then 0 else CURSOR_JUMP_OFFSET - dl.start, 1)
      else (CURSOR_JUMP_OFFSET, dl.start - CURSOR_JUMP_OFFSET + 1)
    let scroll_offset := p.1
    let display_line_start := p.2
    let dl1 :=
      if scroll_offset > 0 then
        { dl with start := display_line_start - 1,
                  endL := display_line_start + w - STATUS_LINE_OFFSET - 2 }
      else dl
    let jump_offset := CURSOR_JUMP_OFFSET - scroll_offset
    let t1 :=
      if jump_offset > 0 then
        let jo := if jump_offset > t.row then jump_offset - t.row else jump_offset
        if jo > 0 then moveUp t jo else t
      else t
    { st with display_lines := dl1, term := t1 }
  | Event.ctrlD =>
    let dle0 := now_line_idx + CURSOR_JUMP_OFFSET + w - STATUS_LINE_OFFSET - t.row
    let q :=
      if dle0 > L - 1 then
        (u16sub CURSOR_JUMP_OFFSET (u16of (u64sub (u64sub dle0 L) 1)), L - 1)
      else (CURSOR_JUMP_OFFSET, dle0)
    let display_line_end := q.2
    let scroll_offset :=
      if display_line_end = L - 1 ∧ dl.endL = display_line_end then 0 else q.1
    let dl1 :=
      if scroll_offset > 0 then
        let line_start_num := now_line_idx + scroll_offset
        let line_start_idx := line_start_num - 1
        { dl with start := line_start_idx, endL := display_line_end }
      else dl
    let jump_offset := u16sub CURSOR_JUMP_OFFSET scroll_offset
    let t1 :=
      if jump_offset > 0 then
        let check_offset := u16add (u16add (u16of dl1.start) t.row) jump_offset
        let jo :=
          if check_offset > u16of L then
            u16sub (u16sub (u16sub (u16of L) (u16of dl1.start)) t.row) 1
          else if check_offset > u16of display_line_end then
            u16sub (u16sub (u16sub w t.row) STATUS_LINE_OFFSET) 1
          else jump_offset
        if jo > 0 then moveDown w t jo else t
      else t
    { st with display_lines := dl1, term := t1 }
  | Event.slash =>
    { st with
        display_lines := { dl with cursor_pos := (t.row, t.col) },
        term := moveTo w wc 0 (w + 1) t }
  | Event.keyN =>
    if sr.exists_match then
      match sr.get_near_line (now_line_idx + 2, dl.cursor_pos.2) with
      | (some (lnum, lcol), sr1) =>
        { st with
            display_lines := { dl with start := lnum - 1, endL := lnum - 1 },
            term := moveTo w wc lcol 0 t,
            search_result := sr1 }
      | (none, sr1) => { st with search_result := sr1 }
    else st
  | Event.keyNshift =>
    if sr.exists_match then
      match sr.get_near_line_with_previous (now_line_idx + 2, dl.cursor_pos.2) with
      | (some (lnum, lcol), sr1) =>
        { st with
            display_lines := { dl with start := lnum - 1, endL := lnum - 1 },
            term := moveTo w wc lcol 0 t,
            search_result := sr1 }
      | (none, sr1) => { st with search_result := sr1 }
    else st
  | _ => st

/-- handler_search_word_input_mode from src/renderloop.rs.  `found` is the
result of the external matcher call `search::search(filename, word)` for the
committed word (boundary collaborator).  The returned `Bool` is the
`return_search_word_input_mode` flag (the handler is invoked with
`is_search_word_input_mode = true`). -/
def handler_search_word_input_mode (w wc : Nat) (found : List (Nat × Nat))
    (event : Event) (dl : DisplayLines) (t : TermState) (sr : SearchResult) :
    DisplayLines × TermState × SearchResult × Bool :=
  match event with
  | Event.esc =>
    (dl, moveTo w wc dl.cursor_pos.2 dl.cursor_pos.1 t, { sr with word_vec := [] }, false)
  | Event.backspace =>
    if sr.word_vec ≠ [] then
      (dl, moveLeft t 1, { sr with word_vec := sr.word_vec.dropLast }, true)
    else (dl, t, sr, true)
  | Event.enter =>
    let word_vec := sr.word_vec
    let sr1 := sr.reset
    let lcol := dl.cursor_pos.2
    let res :=
      if word_vec ≠ [] then
        let sr2 := { sr1 with word := String.mk word_vec }
        if found ≠ [] then
          let sr3 := { sr2 with match_lines := found }
          let now_position_row := dl.start + dl.cursor_pos.1
          let now_position_col := dl.cursor_pos.2
          match sr3.get_near_line (now_position_row, now_position_col) with
          | (some (lnum, lc), sr4) =>
            ({ dl with start := lnum - 1, endL := lnum - 1 }, lc, sr4)
          | (none, sr4) => (dl, lcol, sr4)
        else (dl, lcol, sr2)
      else (dl, lcol, sr1)
    (res.1, moveTo w wc res.2.1 0 t, { res.2.2 with word_vec := [] }, false)
  | Event.char c =>
    (dl, moveRight wc t 1, { sr with word_vec := sr.word_vec ++ [c] }, true)
  | _ => (dl, t, sr, true)

section GetNearLineSpec

/-- Characterisation of the get_near_line loop: no qualifying entry. -/
theorem get_near_line_go_none (ml : List (Nat × Nat)) (line : Nat) :
    ∀ idx, (∀ m ∈ ml, m.1 < line) → get_near_line_go ml line idx = none := by
  induction ml with
  | nil => intro idx _; rfl
  | cons m rest ih =>
    intro idx h
    have hm := h m (List.mem_cons_self m rest)
    simp only [get_near_line_go, ge_iff_le]
    rw [if_neg (by omega)]
    exact ih (idx + 1) (fun x hx => h x (List.mem_cons_of_mem m hx))

/-- The loop returns the first qualifying index, shifted by the start index. -/
theorem get_near_line_go_first (ml : List (Nat × Nat)) (line : Nat) :
    ∀ (idx i : Nat) (hi : i < ml.length), line ≤ (ml.get ⟨i, hi⟩).1 →
    (∀ j (hj : j < i), (ml.get ⟨j, by omega⟩).1 < line) →
    get_near_line_go ml line idx = some (idx + i, ml.get ⟨i, hi⟩) := by
  induction ml with
  | nil => intro idx i hi; simp at hi
  | cons m rest ih =>
    intro idx i hi hhit hbefore
    cases i with
    | zero =>
      simp only [List.get] at hhit
      simp only [get_near_line_go, ge_iff_le, if_pos hhit, List.get, Nat.add_zero]
    | succ i' =>
      have hm := hbefore 0 (Nat.succ_pos i')
      simp only [List.get] at hm hhit ⊢
      simp only [get_near_line_go, ge_iff_le]
      rw [if_neg (by omega)]
      have := ih (idx + 1) i' (by simpa using Nat.lt_of_succ_lt_succ hi) hhit
        (fun j hj => by
          have := hbefore (j + 1) (Nat.succ_lt_succ hj)
          simpa using this)
      rw [this]
      have harith : idx + 1 + i' = idx + (i' + 1) := by omega
      rw [harith]

end GetNearLineSpec

/-- C3: SearchResult::get_near_line scans the match list in ascending index
order and returns the first match whose line number is ≥ pos.line, setting
`now_idx` (cursor_index) to that match's index; if every match's line is
before pos.line it returns None and leaves the state unchanged — it does not
wrap to the first match. -/
theorem C3_get_near_line_first_at_or_after (s : SearchResult) (pos : Nat × Nat) :
    ((∀ m ∈ s.match_lines, m.1 < pos.1) → s.get_near_line pos = (none, s)) ∧
    (∀ i (hi : i < s.match_lines.length),
      pos.1 ≤ (s.match_lines.get ⟨i, hi⟩).1 →
      (∀ j (hj : j < i), (s.match_lines.get ⟨j, by omega⟩).1 < pos.1) →
      s.get_near_line pos =
        (some (s.match_lines.get ⟨i, hi⟩), { s with now_idx := some i })) := by
  constructor
  · intro h
    unfold SearchResult.get_near_line
    rw [get_near_line_go_none s.match_lines pos.1 0 h]
  · intro i hi hhit hbefore
    unfold SearchResult.get_near_line
    rw [get_near_line_go_first s.match_lines pos.1 0 i hi hhit hbefore]
    simp

/-- A search state with matches at lines 3 and 7 and the cursor at line 10. -/
def srC3 : SearchResult :=
  { filename := "f", word := "q", word_vec := [], match_lines := [(3, 0), (7, 2)],
    now_idx := none }

/-- C3 witness: with matches [(3,0),(7,2)] and the cursor at line 10,
get_near_line returns None and does not wrap. -/
theorem C3_witness : srC3.get_near_line (10, 0) = (none, srC3) :=
  (C3_get_near_line_first_at_or_after srC3 (10, 0)).1 (by decide)

/-- C4: SearchResult::next (src/main.rs) requires an active selection
(`now_idx = some n`); it then advances the selection to (n + 1) mod len,
wrapping from the last match back to the first, and returns None exactly
when the match list is empty. -/
theorem C4_next_wraps (s : SearchResultMain) (n : Nat) (h : s.now_idx = some n) :
    (s.lines = [] → s.next = (none, s)) ∧
    (n < s.lines.length →
      s.next = (some (s.lines.getD ((n + 1) % s.lines.length) (0, 0)),
                { s with now_idx := some ((n + 1) % s.lines.length) })) := by
  constructor
  · intro hnil
    simp [SearchResultMain.next, h, hnil]
  · intro hn
    have hpos : s.lines.length > 0 := by omega
    simp only [SearchResultMain.next, h, if_pos hpos]
    by_cases hcase : s.lines.length > n + 1
    · rw [if_pos hcase]
      have hmod : (n + 1) % s.lines.length = n + 1 := Nat.mod_eq_of_lt (by omega)
      rw [hmod]
    · rw [if_neg hcase]
      have hmod : (n + 1) % s.lines.length = 0 := by
        have heq : n + 1 = s.lines.length := by omega
        simp [heq]
      rw [hmod]

/-- A search state (main.rs variant) with three matches, selection on the
last one. -/
def srC4 : SearchResultMain :=
  { word := "q", lines := [(3, 0), (7, 2), (12, 0)], now_idx := some 2 }

/-- C4 witness: with matches [(3,0),(7,2),(12,0)] and now_idx = some 2,
next() yields (3,0) and sets now_idx = some 0. -/
theorem C4_witness :
    srC4.next = (some (3, 0), { srC4 with now_idx := some 0 }) :=
  (C4_next_wraps srC4 2 rfl).2 (by decide)

/-- Helper: the shadow-column correction is always 0 when the corrected line
length argument is 1 (the value the handler passes when no vertical move
happened, since `prev_line_len` stays 0). -/
theorem is_required_correction_cursor_col_one (col before_col : Nat) :
    is_required_correction_cursor_col col before_col 1 = 0 := by
  unfold is_required_correction_cursor_col
  by_cases h : col = before_col
  · rw [if_pos h]
  · rw [if_neg h]
    by_cases hb : (1 : Nat) > before_col
    · rw [if_pos hb]
      have : before_col = 0 := by omega
      simp [this, u16of]
    · rw [if_neg hb, if_pos (Or.inr rfl)]

/-- C9: pressing Up (k) with the viewport at the top of the file
(first_visible_line = 0) and the cursor on screen row 0 is a no-op on the
whole pager state (viewport bounds, cursor, shadow column, search state). -/
theorem C9_up_at_origin_noop (w wc L : Nat) (lines : List String) (st : PagerState)
    (hrow : st.term.row = 0) (hstart : st.display_lines.start = 0) :
    handler_display_input_mode w wc L lines Event.keyK st = st := by
  obtain ⟨⟨s0, e0, cp, sp⟩, ⟨r0, c0⟩, sr0⟩ := st
  simp only at hrow hstart
  subst hrow hstart
  simp [handler_display_input_mode, is_required_correction_cursor_col_one]

/-- Pager state at the top-left origin used as the C9 witness input. -/
def stC9 : PagerState :=
  { display_lines := { start := 0, endL := 7, cursor_pos := (0, 0), shadow_cursor_pos := (0, 3) },
    term := { row := 0, col := 2 },
    search_result := { filename := "f", word := "w", word_vec := [],
                       match_lines := [(2, 1)], now_idx := some 0 } }

/-- C9 witness: a concrete state with first_visible_line = 0 and
cursor_row = 0 is left exactly unchanged by the Up handler. -/
theorem C9_witness :
    handler_display_input_mode 10 80 20 ["ab", "cd"] Event.keyK stC9 = stC9 :=
  C9_up_at_origin_noop 10 80 20 ["ab", "cd"] stC9 rfl rfl

/-- C10: with the cursor on a line of trimmed length 0, the l/Right guard
`line_len as u16 - 1` underflows to 65535 (release wrap-around semantics),
so the guard passes and the cursor moves right, leaving cursor_col outside
the bound cursor_col ≤ max 0 (length - 1). -/
theorem C10_l_on_empty_line_unsound (w wc L : Nat) (lines : List String) (st : PagerState)
    (hlen : get_stripped_line_length
      (lines.getD (st.display_lines.start + st.term.row) "") = 0)
    (hcol : st.term.col < 65535) (hwc : 2 ≤ wc) :
    u16sub (get_stripped_line_length
      (lines.getD (st.display_lines.start + st.term.row) "")) 1 = 65535 ∧
    (handler_display_input_mode w wc L lines Event.keyL st).term.col =
      min (st.term.col + 1) (wc - 1) ∧
    ¬ ((handler_display_input_mode w wc L lines Event.keyL st).term.col ≤
        max 0 (get_stripped_line_length
          (lines.getD (st.display_lines.start + st.term.row) "") - 1)) := by
  have hwrap : u16sub (get_stripped_line_length
      (lines.getD (st.display_lines.start + st.term.row) "")) 1 = 65535 := by
    rw [hlen]; rfl
  refine ⟨hwrap, ?_, ?_⟩
  · simp only [handler_display_input_mode, hwrap, moveRight]
    rw [if_pos (by omega)]
  · simp only [handler_display_input_mode, hwrap, moveRight]
    rw [if_pos (by omega)]
    simp only [hlen]
    omega

/-- Pager state with the cursor at column 0 of an empty line, used as the
C10 witness input. -/
def stC10 : PagerState :=
  { display_lines := { start := 0, endL := 7, cursor_pos := (0, 0), shadow_cursor_pos := (0, 0) },
    term := { row := 0, col := 0 },
    search_result := { filename := "f", word := "", word_vec := [],
                       match_lines := [], now_idx := none } }

/-- C10 witness: on the file ["", "abc"] with the cursor on the empty first
line, l moves the cursor to column 1, violating cursor_col ≤ max 0 (0 - 1). -/
theorem C10_witness :
    u16sub (get_stripped_line_length ((["", "abc"] : List String).getD
      (stC10.display_lines.start + stC10.term.row) "")) 1 = 65535 ∧
    (handler_display_input_mode 10 80 2 ["", "abc"] Event.keyL stC10).term.col =
      min (stC10.term.col + 1) (80 - 1) ∧
    ¬ ((handler_display_input_mode 10 80 2 ["", "abc"] Event.keyL stC10).term.col ≤
        max 0 (get_stripped_line_length ((["", "abc"] : List String).getD
          (stC10.display_lines.start + stC10.term.row) "") - 1)) :=
  C10_l_on_empty_line_unsound 10 80 2 ["", "abc"] stC10 (by decide) (by decide) (by decide)

/-- Viewport at the top of the file, cursor anchored at (0,0). -/
def dlC5 : DisplayLines :=
  { start := 0, endL := 7, cursor_pos := (0, 0), shadow_cursor_pos := (0, 0) }

/-- Cursor at the origin. -/
def tC5 : TermState := { row := 0, col := 0 }

/-- A search state holding a previously committed query "foo" with three
hits and an active selection, and empty pending input. -/
def srC5 : SearchResult :=
  { filename := "f", word := "foo", word_vec := [],
    match_lines := [(1, 0), (5, 2), (9, 0)], now_idx := some 1 }

/-- C5 counterexample: committing (Enter) with empty pending input does NOT
leave the previously committed match list and selection unchanged —
`reset()` runs at the start of every commit and clears them. -/
theorem C5_empty_commit_cex :
    (handler_search_word_input_mode 10 80 [] Event.enter dlC5 tC5 srC5).2.2.1.match_lines = [] ∧
    srC5.match_lines ≠ [] ∧
    (handler_search_word_input_mode 10 80 [] Event.enter dlC5 tC5 srC5).2.2.1.now_idx = none ∧
    srC5.now_idx ≠ none := by decide

/-- C5 amended: committing with empty pending input resets the whole search
state (query, pending input, matches, cursor_index all cleared), leaves the
viewport untouched, and moves the cursor to (saved column, row 0) after the
prompt row is cleared. -/
theorem C5_empty_commit_resets (w wc : Nat) (found : List (Nat × Nat))
    (dl : DisplayLines) (t : TermState) (sr : SearchResult)
    (h : sr.word_vec = []) :
    handler_search_word_input_mode w wc found Event.enter dl t sr =
      (dl, moveTo w wc dl.cursor_pos.2 0 t, sr.reset, false) := by
  simp [handler_search_word_input_mode, h, SearchResult.reset]

/-- C5 witness: the amended behaviour at the concrete prior-hits state. -/
theorem C5_witness :
    handler_search_word_input_mode 10 80 [] Event.enter dlC5 tC5 srC5 =
      (dlC5, moveTo 10 80 dlC5.cursor_pos.2 0 tC5, srC5.reset, false) :=
  C5_empty_commit_resets 10 80 [] dlC5 tC5 srC5 rfl

/-- C6: committing a non-empty query whose matcher run yields zero matches
clears any prior search selection: afterwards `match_lines` is empty and
`now_idx` is none, whatever the previous query, hits and selection were;
the committed word is still recorded. -/
theorem C6_zero_match_commit_clears (w wc : Nat) (dl : DisplayLines)
    (t : TermState) (sr : SearchResult) (h : sr.word_vec ≠ []) :
    (handler_search_word_input_mode w wc [] Event.enter dl t sr).2.2.1.match_lines = [] ∧
    (handler_search_word_input_mode w wc [] Event.enter dl t sr).2.2.1.now_idx = none ∧
    (handler_search_word_input_mode w wc [] Event.enter dl t sr).2.2.1.word =
      String.mk sr.word_vec := by
  simp [handler_search_word_input_mode, h, SearchResult.reset]

/-- A search state with a previously committed query "foo" (3 hits, active
selection) and pending input "zzz". -/
def srC6 : SearchResult :=
  { filename := "f", word := "foo", word_vec := ['z', 'z', 'z'],
    match_lines := [(1, 0), (5, 2), (9, 0)], now_idx := some 0 }

/-- C6 witness: committing "zzz" with zero hits over the prior "foo"
selection leaves matches empty and cursor_index none. -/
theorem C6_witness :
    (handler_search_word_input_mode 10 80 [] Event.enter dlC5 tC5 srC6).2.2.1.match_lines = [] ∧
    (handler_search_word_input_mode 10 80 [] Event.enter dlC5 tC5 srC6).2.2.1.now_idx = none ∧
    (handler_search_word_input_mode 10 80 [] Event.enter dlC5 tC5 srC6).2.2.1.word =
      String.mk srC6.word_vec :=
  C6_zero_match_commit_clears 10 80 dlC5 tC5 srC6 (by decide)

/-- Search state with pending input "a" and no prior query. -/
def srC1 : SearchResult :=
  { filename := "f", word := "", word_vec := ['a'], match_lines := [], now_idx := none }

/-- C1: the search-commit jump breaks the viewport-geometry invariant.  With
window_rows = 10 the reserved status/search rows leave 8 visible rows, and
the initial viewport is lines 0..7; committing a query whose first hit is at
(1-based) line 5 sets BOTH first and last visible line to 4
(`*display_lines.end_mut() = lnum - 1`, marked `TODO` in the source), so
last - first + 1 = 1 ≠ window_rows - STATUS_LINE_OFFSET = 8: the
visible-row-count part of the invariant is not preserved by this handler. -/
theorem C1_search_commit_viewport_collapse :
    ((handler_search_word_input_mode 10 80 [(5, 0)] Event.enter dlC5 tC5 srC1).1.start = 4) ∧
    ((handler_search_word_input_mode 10 80 [(5, 0)] Event.enter dlC5 tC5 srC1).1.endL = 4) ∧
    ((handler_search_word_input_mode 10 80 [(5, 0)] Event.enter dlC5 tC5 srC1).1.endL -
        (handler_search_word_input_mode 10 80 [(5, 0)] Event.enter dlC5 tC5 srC1).1.start + 1 ≠
      10 - STATUS_LINE_OFFSET) := by decide


/-- C7 amended: the actual Ctrl-u behaviour with J = CURSOR_JUMP_OFFSET = 30.
If first_visible_line > J the viewport scrolls up by exactly J lines and the
cursor is untouched.  If first_visible_line = 0 or first_visible_line = J,
the viewport does not move at all and the remaining jump J is first reduced
by cursor_row (when J exceeds it) before the cursor moves up by it, clamping
at row 0.  If 0 < first_visible_line < J the viewport lands at the top of
the file and the cursor moves up by first_visible_line, likewise reduced by
cursor_row when first_visible_line exceeds it. -/
theorem C7_ctrl_u_behavior (w wc L : Nat) (lines : List String) (st : PagerState) :
    (CURSOR_JUMP_OFFSET < st.display_lines.start →
      (handler_display_input_mode w wc L lines Event.ctrlU st).display_lines.start =
        st.display_lines.start - CURSOR_JUMP_OFFSET ∧
      (handler_display_input_mode w wc L lines Event.ctrlU st).display_lines.endL =
        st.display_lines.start - CURSOR_JUMP_OFFSET + 1 + w - STATUS_LINE_OFFSET - 2 ∧
      (handler_display_input_mode w wc L lines Event.ctrlU st).term = st.term) ∧
    ((st.display_lines.start = 0 ∨ st.display_lines.start = CURSOR_JUMP_OFFSET) →
      (handler_display_input_mode w wc L lines Event.ctrlU st).display_lines =
        st.display_lines ∧
      (handler_display_input_mode w wc L lines Event.ctrlU st).term.row =
        st.term.row - (if st.term.row < CURSOR_JUMP_OFFSET
          then CURSOR_JUMP_OFFSET - st.term.row else CURSOR_JUMP_OFFSET) ∧
      (handler_display_input_mode w wc L lines Event.ctrlU st).term.col = st.term.col) ∧
    (0 < st.display_lines.start → st.display_lines.start < CURSOR_JUMP_OFFSET →
      (handler_display_input_mode w wc L lines Event.ctrlU st).display_lines.start = 0 ∧
      (handler_display_input_mode w wc L lines Event.ctrlU st).display_lines.endL =
        1 + w - STATUS_LINE_OFFSET - 2 ∧
      (handler_display_input_mode w wc L lines Event.ctrlU st).term.row =
        st.term.row - (if st.term.row < st.display_lines.start
          then st.display_lines.start - st.term.row else st.display_lines.start) ∧
      (handler_display_input_mode w wc L lines Event.ctrlU st).term.col = st.term.col) := by
  obtain ⟨⟨s0, e0, cp, sp⟩, ⟨r0, c0⟩, sr0⟩ := st
  refine ⟨?_, ?_, ?_⟩
  · intro h
    simp only [handler_display_input_mode, CURSOR_JUMP_OFFSET, STATUS_LINE_OFFSET,
      moveUp, moveDown, gt_iff_lt] at h ⊢
    split_ifs <;> simp_all <;> omega
  · intro h
    rcases h with h | h <;>
    · simp only at h
      subst h
      simp only [handler_display_input_mode, CURSOR_JUMP_OFFSET, STATUS_LINE_OFFSET,
        moveUp, moveDown, gt_iff_lt]
      split_ifs <;> simp_all
  · intro h1 h2
    simp only [handler_display_input_mode, CURSOR_JUMP_OFFSET, STATUS_LINE_OFFSET,
      moveUp, moveDown, gt_iff_lt] at h1 h2 ⊢
    split_ifs <;> simp_all <;> omega

/-- Pager state with the viewport already at the top (first_visible_line = 0)
and the cursor on screen row 20. -/
def stC7 : PagerState :=
  { display_lines := { start := 0, endL := 36, cursor_pos := (0, 0), shadow_cursor_pos := (0, 0) },
    term := { row := 20, col := 0 },
    search_result := { filename := "f", word := "", word_vec := [],
                       match_lines := [], now_idx := none } }

/-- C7 counterexample: at first_visible_line = 0 and cursor_row = 20 the
claim predicts that the cursor moves up by the full remaining jump
J − scrolled = 30 − 0, clamped at row 0 (landing on row 20 − 30 = 0);
the code instead first subtracts cursor_row from the jump and lands on
row 20 − (30 − 20) = 10. -/
theorem C7_ctrl_u_cex :
    (handler_display_input_mode 40 80 100 [] Event.ctrlU stC7).term.row = 10 ∧
    (handler_display_input_mode 40 80 100 [] Event.ctrlU stC7).term.row ≠
      stC7.term.row - (CURSOR_JUMP_OFFSET - 0) := by decide

/-- Pager state with first_visible_line = 50, well below the jump size. -/
def stC7deep : PagerState :=
  { display_lines := { start := 50, endL := 57, cursor_pos := (0, 0), shadow_cursor_pos := (0, 0) },
    term := { row := 3, col := 2 },
    search_result := { filename := "f", word := "", word_vec := [],
                       match_lines := [], now_idx := none } }

/-- C7 witness: with first_visible_line = 50 > 30 the viewport scrolls up by
exactly 30 lines and the cursor is unchanged. -/
theorem C7_witness :
    (handler_display_input_mode 10 80 100 [] Event.ctrlU stC7deep).display_lines.start =
      stC7deep.display_lines.start - CURSOR_JUMP_OFFSET ∧
    (handler_display_input_mode 10 80 100 [] Event.ctrlU stC7deep).display_lines.endL =
      stC7deep.display_lines.start - CURSOR_JUMP_OFFSET + 1 + 10 - STATUS_LINE_OFFSET - 2 ∧
    (handler_display_input_mode 10 80 100 [] Event.ctrlU stC7deep).term = stC7deep.term :=
  (C7_ctrl_u_behavior 10 80 100 [] stC7deep).1 (by decide)

/-- C8: Ctrl-d never scrolls the viewport past the end of the file: if the
last visible line is within the file before the jump, it still is afterwards
(post-jump last_visible_line ≤ line_count - 1); the scroll amount is clamped
so the viewport lands at the final line at most. -/
theorem C8_ctrl_d_bounded (w wc L : Nat) (lines : List String) (st : PagerState)
    (hend : st.display_lines.endL ≤ L - 1) :
    (handler_display_input_mode w wc L lines Event.ctrlD st).display_lines.endL ≤ L - 1 := by
  obtain ⟨⟨s0, e0, cp, sp⟩, ⟨r0, c0⟩, sr0⟩ := st
  simp only at hend
  simp only [handler_display_input_mode, CURSOR_JUMP_OFFSET, STATUS_LINE_OFFSET,
    moveDown, gt_iff_lt]
  split_ifs <;> simp_all

/-- Pager state on a 50-line file, viewport lines 40..47, cursor on row 0
(file line 40). -/
def stC8 : PagerState :=
  { display_lines := { start := 40, endL := 47, cursor_pos := (0, 0), shadow_cursor_pos := (0, 0) },
    term := { row := 0, col := 0 },
    search_result := { filename := "f", word := "", word_vec := [],
                       match_lines := [], now_idx := none } }

/-- C8 witness: on a 50-line file with jump size 30 starting at line 40 the
post-jump last_visible_line equals 49, the 0-based final line. -/
theorem C8_witness :
    (handler_display_input_mode 10 80 50 [] Event.ctrlD stC8).display_lines.endL ≤ 50 - 1 ∧
    (handler_display_input_mode 10 80 50 [] Event.ctrlD stC8).display_lines.endL = 49 :=
  ⟨C8_ctrl_d_bounded 10 80 50 [] stC8 (by decide), by decide⟩


/-- Helper: `u16of` is the identity below 2^16. -/
theorem u16of_small (n : Nat) (h : n < 65536) : u16of n = n := by
  unfold u16of
  omega

/-- Helper: `i16of` is the inclusion below 2^15. -/
theorem i16of_small (n : Nat) (h : n < 32768) : i16of n = (n : Int) := by
  unfold i16of
  rw [u16of_small n (by omega)]
  rw [if_pos h]

/-- Helper: the shadow correction returns the shadow column itself whenever
the cursor sits strictly left of it and the line is strictly longer than the
shadow column (with everything below 2^15). -/
theorem is_required_correction_cursor_col_restore (col before_col line_len : Nat)
    (hne : col < before_col) (hfit : before_col < line_len) (hsm : before_col < 32768) :
    is_required_correction_cursor_col col before_col line_len = before_col := by
  unfold is_required_correction_cursor_col
  rw [if_neg (by omega), if_pos (by omega), u16of_small before_col (by omega)]

/-- C2: sticky-column restoration.  After a single-step vertical move
(j/Down in its non-scrolling branch, or the mirrored k/Up move), if the
cursor column had previously been clamped by a short line
(cursor_col < shadow_col) and the remembered shadow column fits on the new
line (shadow_col ≤ trimmed length − 1), the cursor column is restored to the
shadow column instead of staying clamped.  The side conditions pick the
non-scrolling branch (cursor not on the bottom/top screen row, not at the
file's last line) and keep the values inside the u16/i16 and window ranges
the scenario lives in. -/
theorem C2_sticky_column_restored (w wc L : Nat) (lines : List String) (st : PagerState) :
    (w - DISPLAY_BOTTOM_LINE_OFFSET ≠ st.term.row → L ≠ st.term.row + 1 →
      st.term.col < st.display_lines.shadow_cursor_pos.2 →
      st.display_lines.shadow_cursor_pos.2 <
        get_stripped_line_length (lines.getD (st.display_lines.start + st.term.row + 1) "") →
      get_stripped_line_length (lines.getD (st.display_lines.start + st.term.row + 1) "") < 32768 →
      st.display_lines.shadow_cursor_pos.2 < wc →
      (handler_display_input_mode w wc L lines Event.keyJ st).term.col =
        st.display_lines.shadow_cursor_pos.2) ∧
    (0 ≠ st.term.row →
      st.term.col < st.display_lines.shadow_cursor_pos.2 →
      st.display_lines.shadow_cursor_pos.2 <
        get_stripped_line_length (lines.getD (st.display_lines.start + st.term.row - 1) "") →
      get_stripped_line_length (lines.getD (st.display_lines.start + st.term.row - 1) "") < 32768 →
      st.display_lines.shadow_cursor_pos.2 < wc →
      (handler_display_input_mode w wc L lines Event.keyK st).term.col =
        st.display_lines.shadow_cursor_pos.2) := by
  obtain ⟨⟨s0, e0, cp, spr, spc⟩, ⟨r0, c0⟩, sr0⟩ := st
  constructor
  · intro h1 h2 h3 h4 h5 h6
    simp only at h1 h2 h3 h4 h5 h6
    simp only [handler_display_input_mode]
    rw [if_neg (show ¬ (w - DISPLAY_BOTTOM_LINE_OFFSET = r0 ∧ L ≠ e0 + 1) from
          fun hc => h1 hc.1),
        if_pos (show w - DISPLAY_BOTTOM_LINE_OFFSET ≠ r0 ∧ L ≠ r0 + 1 from ⟨h1, h2⟩)]
    rw [u16of_small (get_stripped_line_length (lines.getD (s0 + r0 + 1) "") - 1) (by omega)]
    rw [if_neg (show ¬ (c0 > get_stripped_line_length (lines.getD (s0 + r0 + 1) "") - 1)
          from by omega)]
    rw [is_required_correction_cursor_col_restore c0 spc
          (get_stripped_line_length (lines.getD (s0 + r0 + 1) "") - 1 + 1)
          h3 (by omega) (by omega)]
    rw [if_pos (show spc > 0 by omega)]
    rw [i16of_small spc (by omega), i16of_small c0 (by omega)]
    rw [if_neg (show ¬ ((spc : Int) - (c0 : Int) < 0) from by omega)]
    simp only [moveDown, moveLeft, moveRight, gt_iff_lt, Nat.lt_irrefl, if_false]
    omega
  · intro h1 h3 h4 h5 h6
    simp only at h1 h3 h4 h5 h6
    simp only [handler_display_input_mode]
    rw [if_neg (show ¬ (0 = r0 ∧ s0 > 0) from fun hc => h1 hc.1),
        if_pos (show 0 ≠ r0 from h1)]
    rw [u16of_small (get_stripped_line_length (lines.getD (s0 + r0 - 1) "") - 1) (by omega)]
    rw [if_neg (show ¬ (c0 > get_stripped_line_length (lines.getD (s0 + r0 - 1) "") - 1)
          from by omega)]
    rw [is_required_correction_cursor_col_restore c0 spc
          (get_stripped_line_length (lines.getD (s0 + r0 - 1) "") - 1 + 1)
          h3 (by omega) (by omega)]
    rw [if_pos (show spc > 0 by omega)]
    rw [i16of_small spc (by omega), i16of_small c0 (by omega)]
    rw [if_neg (show ¬ ((spc : Int) - (c0 : Int) < 0) from by omega)]
    simp only [moveUp, moveLeft, moveRight, gt_iff_lt, Nat.lt_irrefl, if_false]
    omega

/-- The three-line file of the sticky-column scenario: lengths 10, 3, 10. -/
def demoLines : List String := ["aaaaaaaaaa", "aaa", "aaaaaaaaaa"]

/-- Start of the sticky-column scenario: cursor at column 8 of the length-10
first line, shadow column 8. -/
def demoSt0 : PagerState :=
  { display_lines := { start := 0, endL := 7, cursor_pos := (0, 0), shadow_cursor_pos := (0, 8) },
    term := { row := 0, col := 8 },
    search_result := { filename := "f", word := "", word_vec := [],
                       match_lines := [], now_idx := none } }

/-- After the first j: the cursor was clamped to column 2 on the length-3
line, the shadow column still remembers 8. -/
def demoSt1 : PagerState :=
  { display_lines := { start := 0, endL := 7, cursor_pos := (0, 0), shadow_cursor_pos := (0, 8) },
    term := { row := 1, col := 2 },
    search_result := { filename := "f", word := "", word_vec := [],
                       match_lines := [], now_idx := none } }

/-- C2 witness: from column 8 on a length-10 line, j onto the length-3 line
clamps the cursor to column 2 (first conjunct, by evaluation), and the next
j onto a length-10 line restores column 8 (second conjunct, by the sticky
restoration theorem). -/
theorem C2_witness :
    handler_display_input_mode 10 80 3 demoLines Event.keyJ demoSt0 = demoSt1 ∧
    (handler_display_input_mode 10 80 3 demoLines Event.keyJ demoSt1).term.col = 8 :=
  ⟨by decide,
   (C2_sticky_column_restored 10 80 3 demoLines demoSt1).1
     (by decide) (by decide) (by decide) (by decide) (by decide) (by decide)⟩
